import Mathlib

/-!
Verification of the Conviva Experience Insights Prometheus exporter
(`prometheus-conviva-exporter`).

The repository contains two pipeline variants of the same exporter:

* the v3 variant (`main.go`): metrics arrive as a JSON object per dimension
  row, each metric value extracted through a named sub-field
  (`count` / `ratio` / `percentage` / `bps` / `value`);
* the v2.6 variant (second `main.go` generation): metrics arrive as
  positional arrays of floats, one filter table per filter id.

Both variants are embedded shallowly below.  JSON documents are modelled as
an abstract syntax tree; the `buger/jsonparser` operations used by the code
(`GetString`, `GetFloat`, `ArrayEach`, `ObjectEach` with key paths,
first-match key lookup) are modelled as total functions on that tree.
Numbers are modelled as rationals: every numeric literal the claims exercise
is exact, and no floating-point rounding is involved in the properties
under study.  `log.Fatalln` (which exits the process) and runtime panics
(out-of-range slice indexing) are modelled as explicit outcome
constructors, since several claims are about whether the process survives.
-/

set_option autoImplicit false

namespace Conviva

/-- A JSON value.  Object fields keep document order, matching the byte-level
iteration order of `jsonparser.ObjectEach`. -/
inductive Json where
  | null
  | bool (b : Bool)
  | num (q : ℚ)
  | str (s : String)
  | arr (elems : List Json)
  | obj (fields : List (String × Json))
deriving Repr, Inhabited

/-- One step of a `jsonparser` key path: either an object field name or an
array index written `"[N]"` in the Go source. -/
inductive JKey where
  | field (name : String)
  | index (i : Nat)
deriving Repr, DecidableEq

/-- First-match field lookup, as performed by `jsonparser.searchKeys`: the
first field with the requested name wins. -/
def lookupField : List (String × Json) → String → Option Json
  | [], _ => none
  | (k, v) :: rest, name => if k = name then some v else lookupField rest name

/-- One key-path step. -/
def Json.getKey : Json → JKey → Option Json
  | Json.obj fields, JKey.field name => lookupField fields name
  | Json.arr elems, JKey.index i => elems.get? i
  | _, _ => none

/-- Key-path navigation (`jsonparser.searchKeys`). -/
def Json.getPath (j : Json) (keys : List JKey) : Option Json :=
  keys.foldl (fun acc k => acc.bind (fun v => v.getKey k)) (some j)

/-- The raw body handed to the Response Parser: either a JSON document or
bytes that are not valid JSON (on which every `jsonparser` lookup fails and
every `ArrayEach` / `ObjectEach` iterates zero times). -/
inductive Body where
  | json (j : Json)
  | malformed
deriving Repr

/-- `Body`-level key-path navigation. -/
def Body.getPath : Body → List JKey → Option Json
  | Body.json j, keys => j.getPath keys
  | Body.malformed, _ => none

/-- Errors produced by the `jsonparser` library itself. -/
inductive JPErr where
  | keyPathNotFound
  | malformedJson
  | wrongType
deriving Repr, DecidableEq

/-- The message of a `jsonparser` error.  (`wrongType` abbreviates the
library's "Value is not a string/number" family.) -/
def JPErr.message : JPErr → String
  | JPErr.keyPathNotFound => "Key path not found"
  | JPErr.malformedJson => "Malformed JSON error"
  | JPErr.wrongType => "Value is not a string"

/-- `jsonparser.GetString(body, keys...)`: succeeds exactly on a string leaf. -/
def Body.getString (b : Body) (keys : List JKey) : Except JPErr String :=
  match b with
  | Body.malformed => Except.error JPErr.malformedJson
  | Body.json j =>
    match j.getPath keys with
    | none => Except.error JPErr.keyPathNotFound
    | some (Json.str s) => Except.ok s
    | some _ => Except.error JPErr.wrongType

/-- `jsonparser.GetString` applied to an already-extracted sub-value. -/
def jsonGetString (j : Json) (keys : List JKey) : Option String :=
  match j.getPath keys with
  | some (Json.str s) => some s
  | _ => none

/-- `jsonparser.GetFloat` applied to an already-extracted sub-value:
succeeds exactly on a numeric leaf.  (The byte-level library would also
re-parse a string whose raw content happens to be a numeral; no theorem
below places a string at a numeric position, so that artifact is not
modelled.) -/
def jsonGetFloat (j : Json) (keys : List JKey) : Option ℚ :=
  match j.getPath keys with
  | some (Json.num q) => some q
  | _ => none

/-- The Go `string(value)` rendering of an element's raw bytes, used by the
v2.6 variant for dimension titles.  String elements render as their
content; composite values are abbreviated (their exact byte rendering is
not exercised by any theorem below). -/
def Json.rawText : Json → String
  | Json.str s => s
  | Json.num q => toString q
  | Json.bool b => toString b
  | Json.null => "null"
  | Json.arr _ => "array"
  | Json.obj _ => "object"

/-- Errors a whole scrape can fail with, as returned by
`getQualityMetriclens` in either variant. -/
inductive ScrapeError where
  /-- `errors.New("Invalid response from API. Reason: " + reason)`. -/
  | apiReason (reason : String)
  /-- A `jsonparser` error returned unchanged to the caller. -/
  | fromJson (e : JPErr)
  /-- `errors.New("filter is warming up")` (v2.6 only). -/
  | warmingUp
deriving Repr, DecidableEq

/-- The message of a scrape error, as it would be logged. -/
def ScrapeError.message : ScrapeError → String
  | ScrapeError.apiReason r => "Invalid response from API. Reason: " ++ r
  | ScrapeError.fromJson e => e.message
  | ScrapeError.warmingUp => "filter is warming up"

/-! ## v3 variant (`main.go`): data model -/

/-- `type Metric struct { metricName string; value float64 }`. -/
structure Metric3 where
  metricName : String
  value : ℚ
deriving Repr, DecidableEq

/-- `type Dimension struct { dimensionValue string; metrics []*Metric }`. -/
structure Dimension3 where
  dimensionValue : String
  metrics : List Metric3
deriving Repr, DecidableEq

/-- `type MetricsData struct { filterTitle, dimensionTitle string; dimensions []*Dimension }`. -/
structure MetricsData where
  filterTitle : String
  dimensionTitle : String
  dimensions : List Dimension3
deriving Repr, DecidableEq

/-- Result of running a piece of code that may call `log.Fatalln` (which
exits the whole process). -/
inductive Fatal (α : Type) where
  | ok (a : α)
  | fatal (msg : String)
deriving Repr, DecidableEq

/-- Outcome of `getQualityMetriclens` in the v3 variant: a parsed result, an
error returned to `Collect`, or process termination via `log.Fatalln`. -/
inductive Outcome (α : Type) where
  | ok (a : α)
  | err (e : ScrapeError)
  | fatal (msg : String)
deriving Repr, DecidableEq

/-- The named-field extraction (`metric.value, err = jsonparser.GetFloat(value, k)`):
on failure the Go float keeps the library's zero return value and the shared
`err` variable becomes non-nil. -/
def selFloat (value : Json) (k : String) : ℚ × Bool :=
  match jsonGetFloat value [JKey.field k] with
  | some q => (q, false)
  | none => (0, true)

/-- One iteration of the metric `switch` in the v3 `ObjectEach` callback.
Input: the shared `err` state (`true` = non-nil), the metric key and its
JSON sub-value.  Output: the value stored in the freshly allocated `Metric`
and the `err` state after the `switch`.

Source fidelity notes:
* the `bitrate` case declares a fresh local `err` with `:=`, so it never
  touches the shared `err`; its assignment `metric.value = bps / 1000` is
  guarded by `err != nil`, under which `bps` is the zero value `0` — so the
  stored value is `0` whether or not `bps` extraction succeeds;
* the `default` case is a bare `break`: the metric keeps value `0` and the
  shared `err` is untouched. -/
def stepMetric3 (errSt : Bool) (name : String) (value : Json) : ℚ × Bool :=
  match name with
  | "attempts" => selFloat value "count"
  | "bitrate" =>
    match jsonGetFloat value [JKey.field "bps"] with
    | some _ => (0, errSt)
    | none => ((0 : ℚ) / 1000, errSt)
  | "connection_induced_rebuffering_ratio" => selFloat value "ratio"
  | "ended_plays" => selFloat value "count"
  | "exit_before_video_starts" => selFloat value "percentage"
  | "plays" => selFloat value "percentage"
  | "rebuffering_ratio" => selFloat value "ratio"
  | "video_playback_failures" => selFloat value "percentage"
  | "video_start_failures" => selFloat value "percentage"
  | "video_start_time" => selFloat value "value"
  | _ => (0, errSt)

/-- The v3 `ObjectEach` loop over one row's `"metrics"` object.  Each
callback first checks the shared `err` from the previous iteration and calls
`log.Fatalln` (process exit) when it is non-nil; otherwise it builds the
metric via the `switch` and unconditionally appends it. -/
def foldMetrics3 (errSt : Bool) (acc : List Metric3) :
    List (String × Json) → Fatal (List Metric3 × Bool)
  | [] => Fatal.ok (acc, errSt)
  | p :: rest =>
    if errSt then Fatal.fatal "Could not get time_series[0].dimensional_data.metrics"
    else
      let r := stepMetric3 errSt p.1 p.2
      foldMetrics3 r.2 (acc ++ [⟨p.1, r.1⟩]) rest

/-- Processing of one `dimensional_data` row in the v3 variant: extract
`dimension.value` (a failed extraction hits `log.Fatalln`), then iterate the
`"metrics"` object.  If the `"metrics"` path is absent or not an object,
`ObjectEach` errors out without iterating and the row keeps zero metrics. -/
def processRow3 (row : Json) : Fatal Dimension3 :=
  match jsonGetString row [JKey.field "dimension", JKey.field "value"] with
  | none => Fatal.fatal "Could not get time_series[0].dimensional_data.dimension.value"
  | some dv =>
    let fields := match row.getPath [JKey.field "metrics"] with
      | some (Json.obj fs) => fs
      | _ => []
    match foldMetrics3 false [] fields with
    | Fatal.fatal m => Fatal.fatal m
    | Fatal.ok (ms, _) => Fatal.ok ⟨dv, ms⟩

/-- The v3 `ArrayEach` loop over all rows; a fatal row terminates the
process before later rows run. -/
def processRows3 : List Json → Fatal (List Dimension3)
  | [] => Fatal.ok []
  | r :: rs =>
    match processRow3 r with
    | Fatal.fatal m => Fatal.fatal m
    | Fatal.ok d =>
      match processRows3 rs with
      | Fatal.fatal m => Fatal.fatal m
      | Fatal.ok ds => Fatal.ok (d :: ds)

/-- `getQualityMetriclens` of the v3 variant, from the point where the
response (status code and raw body) is in hand.

Source fidelity notes:
* non-200: the code tries `jsonparser.GetString(body, "name")`; on success
  it wraps the reason, on failure it returns the `jsonparser` error itself;
* the `"Unknown"` fallback for the filter title assigns the *dimension*
  variable (a slip in the source): the filter title keeps `GetString`'s
  zero value `""` when the path is absent;
* absent / non-array `time_series[0].dimensional_data` leaves the row loop
  empty (`ArrayEach`'s returned error is ignored). -/
def parse3 (status : Nat) (body : Body) : Outcome MetricsData :=
  if status ≠ 200 then
    match body.getString [JKey.field "name"] with
    | Except.ok reason => Outcome.err (ScrapeError.apiReason reason)
    | Except.error e => Outcome.err (ScrapeError.fromJson e)
  else
    let dimensionTitle :=
      match body.getString [JKey.field "_meta", JKey.field "group_by_dimension",
          JKey.field "description"] with
      | Except.ok s => s
      | Except.error _ => "Unknown"
    let filterTitle :=
      match body.getString [JKey.field "_meta", JKey.field "filter_info",
          JKey.field "id"] with
      | Except.ok s => s
      | Except.error _ => ""
    let rows :=
      match body.getPath [JKey.field "time_series", JKey.index 0,
          JKey.field "dimensional_data"] with
      | some (Json.arr xs) => xs
      | _ => []
    match processRows3 rows with
    | Fatal.fatal m => Outcome.fatal m
    | Fatal.ok ds => Outcome.ok ⟨filterTitle, dimensionTitle, ds⟩

/-- The v3 `metricDescriptions` map: metric key ↦ fully-qualified metric
name of the registered description.  A Go map lookup of an absent key
yields the nil pointer, modelled as `none` (the Prometheus library panics
when handed a nil description). -/
def metricDescriptions : String → Option String
  | "attempts" => some "conviva_experience_insights_attempts"
  | "bitrate" => some "conviva_experience_insights_average_bitrate"
  | "connection_induced_rebuffering_ratio" =>
      some "conviva_experience_insights_connection_induced_rebuffering_ratio"
  | "ended_plays" => some "conviva_experience_insights_ended_plays"
  | "exit_before_video_starts" => some "conviva_experience_insights_exits_before_video_start"
  | "plays" => some "conviva_experience_insights_plays"
  | "rebuffering_ratio" => some "conviva_experience_insights_rebuffering_ratio"
  | "video_playback_failures" => some "conviva_experience_insights_video_playback_failures"
  | "video_start_failures" => some "conviva_experience_insights_video_start_failures"
  | "video_start_time" => some "conviva_experience_insights_video_start_time"
  | _ => none

/-- One message sent on the Prometheus channel: the liveness gauge or a
labelled data sample (description, value, `conviva_filter_id` label,
`metriclens_dimension_value` label). -/
inductive Emitted where
  | up (v : ℚ)
  | sample (desc : Option String) (value : ℚ) (filterLabel : String) (dimLabel : String)
deriving Repr, DecidableEq

/-- Whether a channel message is a data sample (as opposed to liveness). -/
def Emitted.isData : Emitted → Bool
  | Emitted.up _ => false
  | Emitted.sample _ _ _ _ => true

/-- What a `Collect` call wrote to the channel: either a completed message
list, or the messages written before the process died (`log.Fatalln` or a
runtime panic). -/
inductive EmitResult where
  | out (msgs : List Emitted)
  | terminated (msgs : List Emitted) (msg : String)
deriving Repr, DecidableEq

/-- The messages written to the channel, whether or not the call completed. -/
def EmitResult.msgs : EmitResult → List Emitted
  | EmitResult.out ms => ms
  | EmitResult.terminated ms _ => ms

/-- The data samples among the written messages. -/
def EmitResult.dataSamples (r : EmitResult) : List Emitted :=
  r.msgs.filter Emitted.isData

/-- Sequencing of two channel-writing computations: once the process has
died nothing further is written. -/
def EmitResult.seq : EmitResult → EmitResult → EmitResult
  | EmitResult.terminated ms m, _ => EmitResult.terminated ms m
  | EmitResult.out ms, EmitResult.terminated ms2 m => EmitResult.terminated (ms ++ ms2) m
  | EmitResult.out ms, EmitResult.out ms2 => EmitResult.out (ms ++ ms2)

/-- The inner v3 emission loop over one dimension's stored metrics:
`ch <- prometheus.MustNewConstMetric(metricDescriptions[metric.metricName], ...)`.
The Go map lookup of an unrecognized metric name yields a nil `*Desc`, and
`NewConstMetric` dereferences it (`desc.err`) before anything else — an
unrecovered nil-pointer panic in the collector goroutine that kills the
process before this sample is sent. -/
def emitMetrics3 (filterTitle dimVal : String) : List Metric3 → EmitResult
  | [] => EmitResult.out []
  | m :: ms =>
    match metricDescriptions m.metricName with
    | none =>
      EmitResult.terminated [] "runtime error: invalid memory address or nil pointer dereference"
    | some desc =>
      (EmitResult.out [Emitted.sample (some desc) m.value filterTitle dimVal]).seq
        (emitMetrics3 filterTitle dimVal ms)

/-- The outer v3 emission loop over all dimensions. -/
def emitDims3 (filterTitle : String) : List Dimension3 → EmitResult
  | [] => EmitResult.out []
  | dim :: dims =>
    (emitMetrics3 filterTitle dim.dimensionValue dim.metrics).seq (emitDims3 filterTitle dims)

/-- v3 `updateMetrics`: one sample per stored metric, labels
`(filterTitle, dimensionValue)`, description looked up by metric name; a
stored metric whose name has no description panics the process at that
point. -/
def updateMetrics3 (d : MetricsData) : EmitResult :=
  emitDims3 d.filterTitle d.dimensions

/-- v3 `Collect`: on any scrape error emit only `up = 0`; on success emit
`up = 1` and then run the emitter (which may panic mid-way); a
`log.Fatalln` inside the fetch kills the process before anything is
emitted. -/
def collect3 (status : Nat) (body : Body) : EmitResult :=
  match parse3 status body with
  | Outcome.fatal m => EmitResult.terminated [] m
  | Outcome.err _ => EmitResult.out [Emitted.up 0]
  | Outcome.ok d => (EmitResult.out [Emitted.up 1]).seq (updateMetrics3 d)

/-! ## v2.6 variant: data model -/

/-- v2.6 `type Dimension struct { metrics []float64 }`. -/
structure Dimension26 where
  metrics : List ℚ
deriving Repr, DecidableEq

/-- `type FilterTable struct { filterID string; dimensions []*Dimension }`. -/
structure FilterTable where
  filterID : String
  dimensions : List Dimension26
deriving Repr, DecidableEq

/-- `type QualityMetricLensData struct { filters []*FilterTable; dimensionTitles []string }`. -/
structure QualityMetricLensData where
  filters : List FilterTable
  dimensionTitles : List String
deriving Repr, DecidableEq

/-- The v2.6 `metricDescriptions` slice: the 15 registered description
names, indexed positionally. -/
def metricDescriptions26 : List String :=
  ["conviva_experience_insights_attempts",
   "conviva_experience_insights_video_start_failures",
   "conviva_experience_insights_exits_before_video_start",
   "conviva_experience_insights_plays",
   "conviva_experience_insights_video_start_time",
   "conviva_experience_insights_rebuffering_ratio",
   "conviva_experience_insights_average_bitrate",
   "conviva_experience_insights_video_playback_failures",
   "conviva_experience_insights_ended_plays",
   "conviva_experience_insights_connection_induced_rebuffering_ratio",
   "conviva_experience_insights_video_restart_time",
   "conviva_experience_insights_video_start_failures_technical",
   "conviva_experience_insights_video_start_failures_business",
   "conviva_experience_insights_video_playback_failures_technical",
   "conviva_experience_insights_video_playback_failures_business"]

/-- The elements of `quality_metriclens.meta.filters_warmup`, as iterated by
`ArrayEach` (an absent path or a non-array value iterates zero times). -/
def warmupElems (body : Body) : List Json :=
  match body.getPath [JKey.field "quality_metriclens", JKey.field "meta",
      JKey.field "filters_warmup"] with
  | some (Json.arr xs) => xs
  | _ => []

/-- The elements of `quality_metriclens.xvalues`. -/
def xvaluesOf (body : Body) : List Json :=
  match body.getPath [JKey.field "quality_metriclens", JKey.field "xvalues"] with
  | some (Json.arr xs) => xs
  | _ => []

/-- The fields of `quality_metriclens.tables`, as iterated by `ObjectEach`. -/
def tableFields (body : Body) : List (String × Json) :=
  match body.getPath [JKey.field "quality_metriclens", JKey.field "tables"] with
  | some (Json.obj fs) => fs
  | _ => []

/-- The elements of `quality_metriclens.tables.<filterID>.rows`: the source
re-navigates from the body root using the filter id as a key, so with
duplicate ids the first table wins every time. -/
def rowsOf (body : Body) (filterID : String) : List Json :=
  match body.getPath [JKey.field "quality_metriclens", JKey.field "tables",
      JKey.field filterID, JKey.field "rows"] with
  | some (Json.arr xs) => xs
  | _ => []

/-- One v2.6 row: `ArrayEach` over the row (zero iterations when the row is
not an array), keeping exactly the elements `jsonparser.GetFloat` accepts.
A non-array row still appends a `Dimension` with no metrics. -/
def parseRow26 (row : Json) : Dimension26 :=
  let elems := match row with
    | Json.arr xs => xs
    | _ => []
  ⟨elems.filterMap (fun e =>
    match e with
    | Json.num q => some q
    | _ => none)⟩

/-- `getQualityMetriclens` of the v2.6 variant, from the point where the
response is in hand.  After the warm-up check no code path can return a
non-nil error: the iteration helpers' return values are discarded. -/
def parse26 (status : Nat) (body : Body) : Except ScrapeError QualityMetricLensData :=
  if status ≠ 200 then
    match body.getString [JKey.field "reason"] with
    | Except.ok reason => Except.error (ScrapeError.apiReason reason)
    | Except.error e => Except.error (ScrapeError.fromJson e)
  else if !(warmupElems body).isEmpty then
    Except.error ScrapeError.warmingUp
  else
    Except.ok
      { filters := (tableFields body).map (fun p =>
          ⟨p.1, (rowsOf body p.1).map parseRow26⟩),
        dimensionTitles := (xvaluesOf body).map Json.rawText }

/-- The inner v2.6 emission loop over one dimension's metric values:
`metricDescriptions[k]` is an unchecked slice index, so a row with more
values than descriptions panics (runtime index-out-of-range). -/
def emitRow26 (fid title : String) : List ℚ → Nat → EmitResult
  | [], _ => EmitResult.out []
  | v :: vs, k =>
    match metricDescriptions26.get? k with
    | none => EmitResult.terminated [] "runtime error: index out of range"
    | some desc =>
      (EmitResult.out [Emitted.sample (some desc) v fid title]).seq
        (emitRow26 fid title vs (k + 1))

/-- The middle v2.6 emission loop over one filter's dimensions:
`data.dimensionTitles[j]` is an unchecked slice index, so a filter with more
dimension rows than titles panics. -/
def emitDims26 (titles : List String) (fid : String) : List Dimension26 → Nat → EmitResult
  | [], _ => EmitResult.out []
  | d :: ds, j =>
    match titles.get? j with
    | none => EmitResult.terminated [] "runtime error: index out of range"
    | some title =>
      (emitRow26 fid title d.metrics 0).seq (emitDims26 titles fid ds (j + 1))

/-- The outer v2.6 emission loop over all filters. -/
def emitFilters26 (titles : List String) : List FilterTable → EmitResult
  | [] => EmitResult.out []
  | f :: fs => (emitDims26 titles f.filterID f.dimensions 0).seq (emitFilters26 titles fs)

/-- v2.6 `updateMetrics`. -/
def updateMetrics26 (d : QualityMetricLensData) : EmitResult :=
  emitFilters26 d.dimensionTitles d.filters

/-- v2.6 `Collect`: on any scrape error emit only `up = 0`; on success emit
`up = 1` and then run the emitter (which may panic). -/
def collect26 (status : Nat) (body : Body) : EmitResult :=
  match parse26 status body with
  | Except.error _ => EmitResult.out [Emitted.up 0]
  | Except.ok d =>
    match updateMetrics26 d with
    | EmitResult.out ms => EmitResult.out (Emitted.up 1 :: ms)
    | EmitResult.terminated ms m => EmitResult.terminated (Emitted.up 1 :: ms) m

/-! ## Input constructors and expected-output descriptions used by the theorems -/

/-- A v3 body with one `dimensional_data` row: the given dimension value and
the given `"metrics"` object fields. -/
def mkBody3Row (dimVal : String) (fs : List (String × Json)) : Body :=
  Body.json (Json.obj [("time_series", Json.arr [Json.obj [("dimensional_data",
    Json.arr [Json.obj [("dimension", Json.obj [("value", Json.str dimVal)]),
      ("metrics", Json.obj fs)]])]])])

/-- A v2.6 body with the given `xvalues` titles and a single filter table
holding the given rows of numeric metric values. -/
def mkBody26 (titles : List String) (fid : String) (rows : List (List ℚ)) : Body :=
  Body.json (Json.obj [("quality_metriclens", Json.obj [
    ("xvalues", Json.arr (titles.map Json.str)),
    ("tables", Json.obj [(fid, Json.obj [("rows",
      Json.arr (rows.map (fun r => Json.arr (r.map Json.num))))])])])])

/-- The v3 extraction-rule table restricted to the nine metric keys whose
`switch` case assigns `metric.value, err = jsonparser.GetFloat(value, sub)`
(every recognized key except `bitrate`, whose case is analysed separately). -/
def namedFieldSelectors : List (String × String) :=
  [("attempts", "count"),
   ("connection_induced_rebuffering_ratio", "ratio"),
   ("ended_plays", "count"),
   ("exit_before_video_starts", "percentage"),
   ("plays", "percentage"),
   ("rebuffering_ratio", "ratio"),
   ("video_playback_failures", "percentage"),
   ("video_start_failures", "percentage"),
   ("video_start_time", "value")]

/-- The samples the v2.6 emitter writes for one dimension row, starting at
description index `k`. -/
def rowSamples26 (fid title : String) : Nat → List ℚ → List Emitted
  | _, [] => []
  | k, v :: vs =>
    Emitted.sample (metricDescriptions26.get? k) v fid title :: rowSamples26 fid title (k + 1) vs

/-- The samples the v2.6 emitter writes for one filter before any panic:
rows paired positionally with titles, truncated to the shorter list. -/
def filterSamples26 (fid : String) (titles : List String) (dims : List Dimension26) :
    List Emitted :=
  (titles.zip dims).flatMap (fun p => rowSamples26 fid p.1 0 p.2.metrics)

/-! ## Helper lemmas -/

/-- When every metric entry of a row leaves the shared `err` nil (its
selector resolves to a number, or its case never assigns `err`), the v3
metric loop appends one metric per entry, in order, and never hits
`log.Fatalln`. -/
theorem foldMetrics3_ok (fs : List (String × Json)) (acc : List Metric3)
    (h : ∀ p ∈ fs, (stepMetric3 false p.1 p.2).2 = false) :
    foldMetrics3 false acc fs =
      Fatal.ok (acc ++ fs.map (fun p => ⟨p.1, (stepMetric3 false p.1 p.2).1⟩), false) := by
  induction fs generalizing acc with
  | nil => simp [foldMetrics3]
  | cons p ps ih =>
    have hp : (stepMetric3 false p.1 p.2).2 = false := h p (by simp)
    have hps : ∀ q ∈ ps, (stepMetric3 false q.1 q.2).2 = false :=
      fun q hq => h q (by simp [hq])
    have step : foldMetrics3 false acc (p :: ps) =
        foldMetrics3 (stepMetric3 false p.1 p.2).2
          (acc ++ [⟨p.1, (stepMetric3 false p.1 p.2).1⟩]) ps := rfl
    rw [step, hp, ih _ hps]
    simp

/-- Parsing a single-row v3 body whose metric entries all leave `err` nil:
the dimension title falls back to `"Unknown"`, the filter title to `""`
(both metadata paths are absent from `mkBody3Row`), and the row keeps one
metric per entry. -/
theorem parse3_mkBody3Row (dimVal : String) (fs : List (String × Json))
    (h : ∀ p ∈ fs, (stepMetric3 false p.1 p.2).2 = false) :
    parse3 200 (mkBody3Row dimVal fs) =
      Outcome.ok ⟨"", "Unknown",
        [⟨dimVal, fs.map (fun p => ⟨p.1, (stepMetric3 false p.1 p.2).1⟩)⟩]⟩ := by
  have hrow : processRow3 (Json.obj [("dimension", Json.obj [("value", Json.str dimVal)]),
      ("metrics", Json.obj fs)]) =
      Fatal.ok ⟨dimVal, fs.map (fun p => ⟨p.1, (stepMetric3 false p.1 p.2).1⟩)⟩ := by
    have e1 : processRow3 (Json.obj [("dimension", Json.obj [("value", Json.str dimVal)]),
        ("metrics", Json.obj fs)]) =
        (match foldMetrics3 false [] fs with
         | Fatal.fatal m => Fatal.fatal m
         | Fatal.ok (ms, _) => Fatal.ok ⟨dimVal, ms⟩) := rfl
    rw [e1, foldMetrics3_ok fs [] h]
    simp
  have e3 : processRows3 [Json.obj [("dimension", Json.obj [("value", Json.str dimVal)]),
      ("metrics", Json.obj fs)]] =
      Fatal.ok [⟨dimVal, fs.map (fun p => ⟨p.1, (stepMetric3 false p.1 p.2).1⟩)⟩] := by
    simp only [processRows3]
    rw [hrow]
  have e4 : parse3 200 (mkBody3Row dimVal fs) =
      (match processRows3 [Json.obj [("dimension", Json.obj [("value", Json.str dimVal)]),
          ("metrics", Json.obj fs)]] with
       | Fatal.fatal m => Outcome.fatal m
       | Fatal.ok ds => Outcome.ok ⟨"", "Unknown", ds⟩) := rfl
  rw [e4, e3]

/-- When every stored metric's name has a registered description, the v3
inner emission loop writes one sample per metric and completes. -/
theorem emitMetrics3_ok (filterTitle dimVal : String) (ms : List Metric3)
    (h : ∀ m ∈ ms, (metricDescriptions m.metricName).isSome = true) :
    emitMetrics3 filterTitle dimVal ms =
      EmitResult.out (ms.map (fun m =>
        Emitted.sample (metricDescriptions m.metricName) m.value filterTitle dimVal)) := by
  induction ms with
  | nil => rfl
  | cons m rest ih =>
    obtain ⟨d, hd⟩ := Option.isSome_iff_exists.mp (h m (by simp))
    have e : emitMetrics3 filterTitle dimVal (m :: rest) =
        (match metricDescriptions m.metricName with
         | none => EmitResult.terminated []
             "runtime error: invalid memory address or nil pointer dereference"
         | some desc =>
           (EmitResult.out [Emitted.sample (some desc) m.value filterTitle dimVal]).seq
             (emitMetrics3 filterTitle dimVal rest)) := rfl
    rw [e, hd, ih (fun x hx => h x (by simp [hx]))]
    simp [EmitResult.seq, hd]

/-- The first stored metric whose name has no registered description makes
the v3 emitter panic on the nil description, after the samples before it
were written. -/
theorem emitMetrics3_panic (filterTitle dimVal : String) (pre : List Metric3)
    (m0 : Metric3) (rest : List Metric3)
    (h : ∀ m ∈ pre, (metricDescriptions m.metricName).isSome = true)
    (h0 : metricDescriptions m0.metricName = none) :
    emitMetrics3 filterTitle dimVal (pre ++ m0 :: rest) =
      EmitResult.terminated (pre.map (fun m =>
        Emitted.sample (metricDescriptions m.metricName) m.value filterTitle dimVal))
        "runtime error: invalid memory address or nil pointer dereference" := by
  induction pre with
  | nil =>
    have e : emitMetrics3 filterTitle dimVal ([] ++ m0 :: rest) =
        (match metricDescriptions m0.metricName with
         | none => EmitResult.terminated []
             "runtime error: invalid memory address or nil pointer dereference"
         | some desc =>
           (EmitResult.out [Emitted.sample (some desc) m0.value filterTitle dimVal]).seq
             (emitMetrics3 filterTitle dimVal rest)) := rfl
    rw [e, h0]
    rfl
  | cons m pre' ih =>
    obtain ⟨d, hd⟩ := Option.isSome_iff_exists.mp (h m (by simp))
    have e : emitMetrics3 filterTitle dimVal ((m :: pre') ++ m0 :: rest) =
        (match metricDescriptions m.metricName with
         | none => EmitResult.terminated []
             "runtime error: invalid memory address or nil pointer dereference"
         | some desc =>
           (EmitResult.out [Emitted.sample (some desc) m.value filterTitle dimVal]).seq
             (emitMetrics3 filterTitle dimVal (pre' ++ m0 :: rest))) := rfl
    rw [e, hd, ih (fun x hx => h x (by simp [hx]))]
    simp [EmitResult.seq, hd]

/-- `updateMetrics` of a v3 result holding a single dimension row reduces
to the inner emission loop. -/
theorem updateMetrics3_single (ft dt dv : String) (ms : List Metric3) :
    updateMetrics3 ⟨ft, dt, [⟨dv, ms⟩]⟩ =
      (emitMetrics3 ft dv ms).seq (EmitResult.out []) := rfl

/-! ## Claims -/

/-- C1: the claim says no malformed payload region ever terminates or
crashes the listening process.  The v3 code contradicts this: a 200
response whose `dimensional_data` row lacks `dimension.value` reaches
`log.Fatalln`, which exits the process (the `return` right after it is dead
code, showing the slip).  This theorem evaluates the pipeline at that
failing input. -/
theorem c1_terminates_on_missing_dimension_value :
    collect3 200 (Body.json (Json.obj [("time_series", Json.arr [Json.obj
      [("dimensional_data", Json.arr [Json.obj []])]])])) =
      EmitResult.terminated []
        "Could not get time_series[0].dimensional_data.dimension.value" := rfl

/-- C2, counterexample: a row with `K = 1` recognized metric (`attempts`)
and one unrecognized key (`bogus`) is not handled by skipping the
unrecognized key: the parser appends it with value `0`, and at emission its
`metricDescriptions` lookup yields a nil description, so
`MustNewConstMetric` panics on the nil pointer and the process dies after
writing `up = 1` and the `attempts` sample — the row does fail. -/
theorem c2_counterexample :
    collect3 200 (mkBody3Row "chrome"
        [("attempts", Json.obj [("count", Json.num 120)]), ("bogus", Json.obj [])]) =
      EmitResult.terminated [Emitted.up 1,
        Emitted.sample (some "conviva_experience_insights_attempts") 120 "" "chrome"]
        "runtime error: invalid memory address or nil pointer dereference" := rfl

/-- C2, amended: unrecognized metric keys are not skipped.  A row whose
entries are all recognized and well-formed emits exactly one sample per
entry after `up = 1` (first conjunct).  A row containing an unrecognized
key is parsed in full — the unknown key is appended with value `0` — but at
emission the nil description of the first unrecognized key makes the
Prometheus-library constructor panic and crash the process: only the
samples of the recognized entries preceding it (plus `up = 1`) are written
(second conjunct). -/
theorem c2_unrecognized_keys_crash (dimVal : String) :
    (∀ fs : List (String × Json),
      (∀ p ∈ fs, (stepMetric3 false p.1 p.2).2 = false ∧
        (metricDescriptions p.1).isSome = true) →
      collect3 200 (mkBody3Row dimVal fs) =
        EmitResult.out (Emitted.up 1 :: fs.map (fun p =>
          Emitted.sample (metricDescriptions p.1) (stepMetric3 false p.1 p.2).1 "" dimVal))) ∧
    (∀ (fs rest : List (String × Json)) (name : String) (v : Json),
      (∀ p ∈ fs, (stepMetric3 false p.1 p.2).2 = false ∧
        (metricDescriptions p.1).isSome = true) →
      (∀ p ∈ rest, (stepMetric3 false p.1 p.2).2 = false) →
      metricDescriptions name = none →
      (stepMetric3 false name v).2 = false →
      collect3 200 (mkBody3Row dimVal (fs ++ (name, v) :: rest)) =
        EmitResult.terminated (Emitted.up 1 :: fs.map (fun p =>
          Emitted.sample (metricDescriptions p.1) (stepMetric3 false p.1 p.2).1 "" dimVal))
          "runtime error: invalid memory address or nil pointer dereference") := by
  have ecol : ∀ gs : List (String × Json), collect3 200 (mkBody3Row dimVal gs) =
      (match parse3 200 (mkBody3Row dimVal gs) with
       | Outcome.fatal m => EmitResult.terminated [] m
       | Outcome.err _ => EmitResult.out [Emitted.up 0]
       | Outcome.ok d => (EmitResult.out [Emitted.up 1]).seq (updateMetrics3 d)) :=
    fun gs => rfl
  constructor
  · intro fs h
    have hms : ∀ m ∈ fs.map (fun p => (⟨p.1, (stepMetric3 false p.1 p.2).1⟩ : Metric3)),
        (metricDescriptions m.metricName).isSome = true := by
      intro m hm
      rw [List.mem_map] at hm
      obtain ⟨p, hp, hpm⟩ := hm
      rw [← hpm]
      exact (h p hp).2
    have e2 : collect3 200 (mkBody3Row dimVal fs) =
        (EmitResult.out [Emitted.up 1]).seq (updateMetrics3 ⟨"", "Unknown",
          [⟨dimVal, fs.map (fun p => ⟨p.1, (stepMetric3 false p.1 p.2).1⟩)⟩]⟩) := by
      rw [ecol fs, parse3_mkBody3Row dimVal fs (fun p hp => (h p hp).1)]
    rw [e2, updateMetrics3_single, emitMetrics3_ok "" dimVal _ hms]
    simp [EmitResult.seq, List.map_map, Function.comp]
  · intro fs rest name v h hrest hname hv
    have hall : ∀ p ∈ fs ++ (name, v) :: rest, (stepMetric3 false p.1 p.2).2 = false := by
      intro p hp
      rw [List.mem_append, List.mem_cons] at hp
      rcases hp with hp | hp | hp
      · exact (h p hp).1
      · rw [hp]; exact hv
      · exact hrest p hp
    have hms : ∀ m ∈ fs.map (fun p => (⟨p.1, (stepMetric3 false p.1 p.2).1⟩ : Metric3)),
        (metricDescriptions m.metricName).isSome = true := by
      intro m hm
      rw [List.mem_map] at hm
      obtain ⟨p, hp, hpm⟩ := hm
      rw [← hpm]
      exact (h p hp).2
    have e2 : collect3 200 (mkBody3Row dimVal (fs ++ (name, v) :: rest)) =
        (EmitResult.out [Emitted.up 1]).seq (updateMetrics3 ⟨"", "Unknown",
          [⟨dimVal, (fs ++ (name, v) :: rest).map
            (fun p => ⟨p.1, (stepMetric3 false p.1 p.2).1⟩)⟩]⟩) := by
      rw [ecol _, parse3_mkBody3Row dimVal _ hall]
    have hsplit : (fs ++ (name, v) :: rest).map
        (fun p => (⟨p.1, (stepMetric3 false p.1 p.2).1⟩ : Metric3)) =
        fs.map (fun p => ⟨p.1, (stepMetric3 false p.1 p.2).1⟩) ++
          (⟨name, (stepMetric3 false name v).1⟩ : Metric3) ::
          rest.map (fun p => ⟨p.1, (stepMetric3 false p.1 p.2).1⟩) := by
      simp
    rw [e2, updateMetrics3_single, hsplit,
      emitMetrics3_panic "" dimVal _ _ _ hms hname]
    simp [EmitResult.seq, List.map_map, Function.comp]

/-- C2, witness: the amended theorem applied to the row
`{attempts: {count: 120}}` (completed emission) and to the row
`{attempts: {count: 120}, bogus: {}}` (panic after the `attempts` sample). -/
theorem c2_witness :
    (∀ p ∈ [("attempts", Json.obj [("count", Json.num 120)])],
      (stepMetric3 false p.1 p.2).2 = false ∧ (metricDescriptions p.1).isSome = true) ∧
    metricDescriptions "bogus" = none ∧
    collect3 200 (mkBody3Row "chrome" [("attempts", Json.obj [("count", Json.num 120)])]) =
      EmitResult.out [Emitted.up 1,
        Emitted.sample (some "conviva_experience_insights_attempts") 120 "" "chrome"] ∧
    collect3 200 (mkBody3Row "chrome"
        [("attempts", Json.obj [("count", Json.num 120)]), ("bogus", Json.obj [])]) =
      EmitResult.terminated [Emitted.up 1,
        Emitted.sample (some "conviva_experience_insights_attempts") 120 "" "chrome"]
        "runtime error: invalid memory address or nil pointer dereference" :=
  ⟨by decide, by decide,
   (c2_unrecognized_keys_crash "chrome").1
     [("attempts", Json.obj [("count", Json.num 120)])] (by decide),
   (c2_unrecognized_keys_crash "chrome").2
     [("attempts", Json.obj [("count", Json.num 120)])] [] "bogus" (Json.obj [])
     (by decide) (by decide) (by decide) (by decide)⟩

/-- C7: the claim says both missing metadata titles default to the literal
`"Unknown"`.  The v3 code contradicts it for the filter title: the fallback
branch assigns the already-consumed dimension variable (a copy-paste slip),
so the filter title keeps `GetString`'s zero value `""`.  At a 200 body with
both metadata paths absent the parse still succeeds, the dimension title is
`"Unknown"`, but the filter title is `""`. -/
theorem c7_missing_metadata_titles :
    parse3 200 (Body.json (Json.obj [])) = Outcome.ok ⟨"", "Unknown", []⟩ := rfl

/-- Sequencing after a completed write of nothing is the identity. -/
theorem EmitResult.seq_out_nil (r : EmitResult) : r.seq (EmitResult.out []) = r := by
  cases r <;> simp [EmitResult.seq]

/-- The v2.6 description slice has 15 entries. -/
theorem metricDescriptions26_length : metricDescriptions26.length = 15 := rfl

/-- The v2.6 inner emission loop completes without panicking as long as the
row does not run past the 15 descriptions. -/
theorem emitRow26_ok (fid title : String) (vals : List ℚ) :
    ∀ k : Nat, k + vals.length ≤ 15 →
      emitRow26 fid title vals k = EmitResult.out (rowSamples26 fid title k vals) := by
  induction vals with
  | nil => intro k _; rfl
  | cons v vs ih =>
    intro k hk
    simp only [List.length_cons] at hk
    have hk15 : k < metricDescriptions26.length := by
      rw [metricDescriptions26_length]; omega
    have hd : metricDescriptions26.get? k =
        some (metricDescriptions26.get ⟨k, hk15⟩) := List.get?_eq_get hk15
    have e : emitRow26 fid title (v :: vs) k =
        (match metricDescriptions26.get? k with
         | none => EmitResult.terminated [] "runtime error: index out of range"
         | some desc => (EmitResult.out [Emitted.sample (some desc) v fid title]).seq
             (emitRow26 fid title vs (k + 1))) := rfl
    rw [e, hd, ih (k + 1) (by omega)]
    simp [EmitResult.seq, rowSamples26, hd]

/-- The number of samples the v2.6 inner loop writes equals the number of
metric values in the row. -/
theorem rowSamples26_length (fid title : String) (vals : List ℚ) :
    ∀ k : Nat, (rowSamples26 fid title k vals).length = vals.length := by
  induction vals with
  | nil => intro k; rfl
  | cons v vs ih => intro k; simp [rowSamples26, ih (k + 1)]

/-- Every message the v2.6 inner loop writes is a data sample. -/
theorem rowSamples26_isData (fid title : String) (vals : List ℚ) :
    ∀ (k : Nat) (s : Emitted), s ∈ rowSamples26 fid title k vals → s.isData = true := by
  induction vals with
  | nil => intro k s hs; simp [rowSamples26] at hs
  | cons v vs ih =>
    intro k s hs
    rw [rowSamples26, List.mem_cons] at hs
    rcases hs with h | h
    · rw [h]; rfl
    · exact ih (k + 1) s h

/-- The v2.6 middle loop, when the remaining dimensions fit inside the
remaining titles: all rows emit, paired positionally with the titles. -/
theorem emitDims26_ok (fid : String) (dims : List Dimension26) :
    ∀ (titles : List String) (j : Nat),
      (∀ d ∈ dims, d.metrics.length ≤ 15) →
      j + dims.length ≤ titles.length →
      emitDims26 titles fid dims j =
        EmitResult.out (((titles.drop j).zip dims).flatMap
          (fun p => rowSamples26 fid p.1 0 p.2.metrics)) := by
  induction dims with
  | nil => intro titles j _ _; simp [emitDims26]
  | cons d ds ih =>
    intro titles j h15 hj
    simp only [List.length_cons] at hj
    have hjlt : j < titles.length := by omega
    have ht : titles.get? j = some (titles.get ⟨j, hjlt⟩) := List.get?_eq_get hjlt
    have e : emitDims26 titles fid (d :: ds) j =
        (emitRow26 fid (titles.get ⟨j, hjlt⟩) d.metrics 0).seq
          (emitDims26 titles fid ds (j + 1)) := by
      have e0 : emitDims26 titles fid (d :: ds) j =
          (match titles.get? j with
           | none => EmitResult.terminated [] "runtime error: index out of range"
           | some title => (emitRow26 fid title d.metrics 0).seq
               (emitDims26 titles fid ds (j + 1))) := rfl
      rw [e0, ht]
    rw [e, emitRow26_ok fid _ d.metrics 0 (by simpa using h15 d (by simp)),
      ih titles (j + 1) (fun x hx => h15 x (by simp [hx])) (by omega)]
    have hdrop : titles.drop j = titles.get ⟨j, hjlt⟩ :: titles.drop (j + 1) :=
      List.drop_eq_get_cons hjlt
    simp only [EmitResult.seq]
    rw [hdrop, List.zip_cons_cons, List.flatMap_cons]

/-- The v2.6 middle loop, when the remaining dimensions outnumber the
remaining titles: it emits the positionally-paired prefix and then panics
on the out-of-range title index. -/
theorem emitDims26_panic (fid : String) (dims : List Dimension26) :
    ∀ (titles : List String) (j : Nat),
      (∀ d ∈ dims, d.metrics.length ≤ 15) →
      j ≤ titles.length → titles.length < j + dims.length →
      emitDims26 titles fid dims j =
        EmitResult.terminated (((titles.drop j).zip dims).flatMap
          (fun p => rowSamples26 fid p.1 0 p.2.metrics))
          "runtime error: index out of range" := by
  induction dims with
  | nil =>
    intro titles j _ hj hlt
    simp only [List.length_nil] at hlt
    exact absurd hlt (by omega)
  | cons d ds ih =>
    intro titles j h15 hj hlt
    simp only [List.length_cons] at hlt
    by_cases hcase : j < titles.length
    · have ht : titles.get? j = some (titles.get ⟨j, hcase⟩) := List.get?_eq_get hcase
      have e : emitDims26 titles fid (d :: ds) j =
          (emitRow26 fid (titles.get ⟨j, hcase⟩) d.metrics 0).seq
            (emitDims26 titles fid ds (j + 1)) := by
        have e0 : emitDims26 titles fid (d :: ds) j =
            (match titles.get? j with
             | none => EmitResult.terminated [] "runtime error: index out of range"
             | some title => (emitRow26 fid title d.metrics 0).seq
                 (emitDims26 titles fid ds (j + 1))) := rfl
        rw [e0, ht]
      rw [e, emitRow26_ok fid _ d.metrics 0 (by simpa using h15 d (by simp)),
        ih titles (j + 1) (fun x hx => h15 x (by simp [hx])) (by omega) (by omega)]
      have hdrop : titles.drop j = titles.get ⟨j, hcase⟩ :: titles.drop (j + 1) :=
        List.drop_eq_get_cons hcase
      simp only [EmitResult.seq]
      rw [hdrop, List.zip_cons_cons, List.flatMap_cons]
    · have ht : titles.get? j = none := by
        rw [List.get?_eq_none]; omega
      have e : emitDims26 titles fid (d :: ds) j =
          EmitResult.terminated [] "runtime error: index out of range" := by
        have e0 : emitDims26 titles fid (d :: ds) j =
            (match titles.get? j with
             | none => EmitResult.terminated [] "runtime error: index out of range"
             | some title => (emitRow26 fid title d.metrics 0).seq
                 (emitDims26 titles fid ds (j + 1))) := rfl
        rw [e0, ht]
      rw [e]
      have hdrop : titles.drop j = [] := List.drop_eq_nil_of_le (by omega)
      rw [hdrop]
      simp

/-- `updateMetrics` of a v2.6 result holding a single filter table reduces
to the middle emission loop. -/
theorem updateMetrics26_single (fid : String) (titles : List String) (dims : List Dimension26) :
    updateMetrics26 ⟨[⟨fid, dims⟩], titles⟩ = emitDims26 titles fid dims 0 := by
  simp [updateMetrics26, emitFilters26, EmitResult.seq_out_nil]

/-- C3, counterexample: one title but two rows — the emitter writes the
sample for the first row and then panics with an index-out-of-range on the
title lookup, instead of silently dropping the excess row. -/
theorem c3_counterexample :
    updateMetrics26 ⟨[⟨"f1", [⟨[5]⟩, ⟨[7]⟩]⟩], ["t0"]⟩ =
      EmitResult.terminated
        [Emitted.sample (some "conviva_experience_insights_attempts") 5 "f1" "t0"]
        "runtime error: index out of range" := rfl

/-- C3, amended: the v2.6 emitter pairs titles with a filter's rows by
position and emits samples exactly for the first
`min(len(titles), len(rows))` positions; but the excess is dropped silently
only when the titles are at least as numerous as the rows — when the rows
outnumber the titles the emitter panics on an out-of-range title index
after emitting that prefix, rather than truncating. -/
theorem c3_truncate_or_panic (fid : String) (titles : List String) (dims : List Dimension26)
    (h15 : ∀ d ∈ dims, d.metrics.length ≤ 15) :
    (dims.length ≤ titles.length →
      updateMetrics26 ⟨[⟨fid, dims⟩], titles⟩ =
        EmitResult.out (filterSamples26 fid titles dims)) ∧
    (titles.length < dims.length →
      updateMetrics26 ⟨[⟨fid, dims⟩], titles⟩ =
        EmitResult.terminated (filterSamples26 fid titles dims)
          "runtime error: index out of range") := by
  constructor
  · intro hle
    rw [updateMetrics26_single, emitDims26_ok fid dims titles 0 h15 (by omega)]
    simp [filterSamples26]
  · intro hlt
    rw [updateMetrics26_single, emitDims26_panic fid dims titles 0 h15 (by omega) (by omega)]
    simp [filterSamples26]

/-- C3, witness: the amended theorem applied to one title and two
single-value rows. -/
theorem c3_witness :
    (∀ d ∈ [(⟨[5]⟩ : Dimension26), ⟨[7]⟩], d.metrics.length ≤ 15) ∧
    (([(⟨[5]⟩ : Dimension26), ⟨[7]⟩].length ≤ ["t0"].length →
      updateMetrics26 ⟨[⟨"f1", [⟨[5]⟩, ⟨[7]⟩]⟩], ["t0"]⟩ =
        EmitResult.out (filterSamples26 "f1" ["t0"] [⟨[5]⟩, ⟨[7]⟩])) ∧
    ((["t0"].length < [(⟨[5]⟩ : Dimension26), ⟨[7]⟩].length →
      updateMetrics26 ⟨[⟨"f1", [⟨[5]⟩, ⟨[7]⟩]⟩], ["t0"]⟩ =
        EmitResult.terminated (filterSamples26 "f1" ["t0"] [⟨[5]⟩, ⟨[7]⟩])
          "runtime error: index out of range"))) :=
  ⟨by decide, c3_truncate_or_panic "f1" ["t0"] [⟨[5]⟩, ⟨[7]⟩] (by decide)⟩

/-- C4, counterexample: in the v3 variant a row whose `attempts` entry lacks
its `count` sub-field, followed by a well-formed sibling `plays` entry,
does not "omit exactly that one sample": the sibling's callback sees the
shared non-nil `err` and the process dies in `log.Fatalln` — no sample is
emitted at all and the scrape does not succeed. -/
theorem c4_counterexample :
    collect3 200 (mkBody3Row "chrome"
        [("attempts", Json.obj []), ("plays", Json.obj [("percentage", Json.num 97.5)])]) =
      EmitResult.terminated [] "Could not get time_series[0].dimensional_data.metrics" := rfl

/-- Lists of numeric JSON leaves survive the v2.6 per-element
`GetFloat` filter unchanged. -/
theorem filterMap_num (l : List ℚ) :
    (l.map Json.num).filterMap (fun e =>
      match e with
      | Json.num q => some q
      | _ => none) = l := by
  induction l with
  | nil => rfl
  | cons q qs ih => simpa using ih

/-- C4, amended: malformed individual metric values behave asymmetrically
in the two variants.  In the v2.6 variant a non-numeric element of a row is
skipped while its numeric siblings still emit (first conjunct).  In the v3
variant a recognized metric whose selector leaves the shared `err` non-nil
kills the process via `log.Fatalln` as soon as any further metric entry
follows it in the same row (second conjunct); only when it is the row's
last entry does the row survive — and then the metric is still appended
with the default value `0` rather than omitted (third conjunct). -/
theorem c4_partial_extraction_behavior :
    (∀ pre post : List ℚ,
      parseRow26 (Json.arr (pre.map Json.num ++ Json.null :: post.map Json.num)) =
        ⟨pre ++ post⟩) ∧
    (∀ (name : String) (v : Json) (rest : List (String × Json)),
      (stepMetric3 false name v).2 = true → rest ≠ [] →
      foldMetrics3 false [] ((name, v) :: rest) =
        Fatal.fatal "Could not get time_series[0].dimensional_data.metrics") ∧
    (∀ (name : String) (v : Json),
      (stepMetric3 false name v).2 = true →
      foldMetrics3 false [] [(name, v)] =
        Fatal.ok ([⟨name, (stepMetric3 false name v).1⟩], true)) := by
  refine ⟨?_, ?_, ?_⟩
  · intro pre post
    have e : parseRow26 (Json.arr (pre.map Json.num ++ Json.null :: post.map Json.num)) =
        ⟨(pre.map Json.num ++ Json.null :: post.map Json.num).filterMap (fun e =>
          match e with
          | Json.num q => some q
          | _ => none)⟩ := rfl
    rw [e, List.filterMap_append, List.filterMap_cons_none rfl, filterMap_num, filterMap_num]
  · intro name v rest hstep hne
    cases rest with
    | nil => exact absurd rfl hne
    | cons p ps =>
      have e : foldMetrics3 false [] ((name, v) :: p :: ps) =
          foldMetrics3 (stepMetric3 false name v).2
            [⟨name, (stepMetric3 false name v).1⟩] (p :: ps) := rfl
      rw [e, hstep]
      rfl
  · intro name v hstep
    have e : foldMetrics3 false [] [(name, v)] =
        foldMetrics3 (stepMetric3 false name v).2
          [⟨name, (stepMetric3 false name v).1⟩] [] := rfl
    rw [e, hstep]
    rfl

/-- C4, witness: the amended theorem applied to a v2.6 row `[1, null, 2]`
and to v3 rows with a `count`-less `attempts` entry. -/
theorem c4_witness :
    parseRow26 (Json.arr [Json.num 1, Json.null, Json.num 2]) = ⟨[1, 2]⟩ ∧
    ((stepMetric3 false "attempts" (Json.obj [])).2 = true ∧
      foldMetrics3 false []
          [("attempts", Json.obj []), ("plays", Json.obj [("percentage", Json.num 97.5)])] =
        Fatal.fatal "Could not get time_series[0].dimensional_data.metrics") ∧
    foldMetrics3 false [] [("attempts", Json.obj [])] =
      Fatal.ok ([⟨"attempts", 0⟩], true) :=
  ⟨c4_partial_extraction_behavior.1 [1] [2],
   ⟨by decide,
    c4_partial_extraction_behavior.2.1 "attempts" (Json.obj [])
      [("plays", Json.obj [("percentage", Json.num 97.5)])] (by decide) (by simp)⟩,
   c4_partial_extraction_behavior.2.2 "attempts" (Json.obj []) (by decide)⟩

/-- C5, counterexample: a `bitrate` entry whose `bps` sub-field is present
and numeric (`2000`) is recorded with value `0`, not the extracted float:
the assignment `metric.value = bps / 1000` is guarded by the inverted check
`err != nil`, so on a successful extraction nothing is assigned. -/
theorem c5_counterexample :
    collect3 200 (mkBody3Row "chrome" [("bitrate", Json.obj [("bps", Json.num 2000)])]) =
      EmitResult.out [Emitted.up 1,
        Emitted.sample (some "conviva_experience_insights_average_bitrate") 0 "" "chrome"] ∧
    (0 : ℚ) ≠ 2000 :=
  ⟨rfl, by norm_num⟩

/-- C5, amended: for the nine extraction rules other than `bitrate`, a
present numeric sub-field is recorded exactly; the `bitrate` sample value
is always `0`, whether or not its `bps` sub-field is present. -/
theorem c5_selector_extraction :
    (∀ (key sub : String) (errSt : Bool) (v : Json) (q : ℚ),
      (key, sub) ∈ namedFieldSelectors →
      jsonGetFloat v [JKey.field sub] = some q →
      (stepMetric3 errSt key v).1 = q) ∧
    (∀ (errSt : Bool) (v : Json), (stepMetric3 errSt "bitrate" v).1 = 0) := by
  constructor
  · intro key sub errSt v q hmem hv
    fin_cases hmem <;> simp [stepMetric3, selFloat, hv]
  · intro errSt v
    rw [stepMetric3]
    cases jsonGetFloat v [JKey.field "bps"] <;> norm_num

/-- C5, witness: the amended theorem applied to `attempts` with
`{count: 120}` and to `bitrate` with `{bps: 2000}`. -/
theorem c5_witness :
    (("attempts", "count") ∈ namedFieldSelectors ∧
      jsonGetFloat (Json.obj [("count", Json.num 120)]) [JKey.field "count"] = some 120 ∧
      (stepMetric3 false "attempts" (Json.obj [("count", Json.num 120)])).1 = 120) ∧
    (stepMetric3 false "bitrate" (Json.obj [("bps", Json.num 2000)])).1 = 0 :=
  ⟨⟨by decide, rfl,
    c5_selector_extraction.1 "attempts" "count" false
      (Json.obj [("count", Json.num 120)]) 120 (by decide) rfl⟩,
   c5_selector_extraction.2 false (Json.obj [("bps", Json.num 2000)])⟩

/-- C6, counterexample: when the reason field is absent from a non-200
body, the scrape error is the JSON library's own lookup error — two
entirely different bodies produce the identical error, whose message is
the fixed string "Key path not found", so the error cannot be carrying the
raw body. -/
theorem c6_counterexample :
    parse3 500 (Body.json (Json.obj [])) =
      Outcome.err (ScrapeError.fromJson JPErr.keyPathNotFound) ∧
    parse3 500 (Body.json (Json.obj [("unrelated", Json.str "payload")])) =
      Outcome.err (ScrapeError.fromJson JPErr.keyPathNotFound) ∧
    (ScrapeError.fromJson JPErr.keyPathNotFound).message = "Key path not found" :=
  ⟨rfl, rfl, rfl⟩

/-- C6, amended: for every non-200 response, the scrape fails.  When the
per-generation reason field (`name` in v3, `reason` in v2.6) holds a
string, the error message is "Invalid response from API. Reason: " followed
by that string; when extraction fails the error is the JSON library's
lookup error (not the raw body).  In both variants the emitted output is
exactly one liveness sample valued 0 and no data samples. -/
theorem c6_non200_error_reason (status : Nat) (body : Body) (h : status ≠ 200) :
    (∀ reason, body.getString [JKey.field "name"] = Except.ok reason →
      parse3 status body = Outcome.err (ScrapeError.apiReason reason) ∧
      (ScrapeError.apiReason reason).message = "Invalid response from API. Reason: " ++ reason) ∧
    (∀ e, body.getString [JKey.field "name"] = Except.error e →
      parse3 status body = Outcome.err (ScrapeError.fromJson e)) ∧
    (∀ reason, body.getString [JKey.field "reason"] = Except.ok reason →
      parse26 status body = Except.error (ScrapeError.apiReason reason)) ∧
    (∀ e, body.getString [JKey.field "reason"] = Except.error e →
      parse26 status body = Except.error (ScrapeError.fromJson e)) ∧
    collect3 status body = EmitResult.out [Emitted.up 0] ∧
    collect26 status body = EmitResult.out [Emitted.up 0] := by
  have e3 : parse3 status body =
      (match body.getString [JKey.field "name"] with
       | Except.ok reason => Outcome.err (ScrapeError.apiReason reason)
       | Except.error e => Outcome.err (ScrapeError.fromJson e)) := by
    simp only [parse3]
    rw [if_pos h]
  have e26 : parse26 status body =
      (match body.getString [JKey.field "reason"] with
       | Except.ok reason => Except.error (ScrapeError.apiReason reason)
       | Except.error e => Except.error (ScrapeError.fromJson e)) := by
    simp only [parse26]
    rw [if_pos h]
  have ecol3 : collect3 status body =
      (match parse3 status body with
       | Outcome.fatal m => EmitResult.terminated [] m
       | Outcome.err _ => EmitResult.out [Emitted.up 0]
       | Outcome.ok d => (EmitResult.out [Emitted.up 1]).seq (updateMetrics3 d)) := rfl
  have ecol26 : collect26 status body =
      (match parse26 status body with
       | Except.error _ => EmitResult.out [Emitted.up 0]
       | Except.ok d =>
         match updateMetrics26 d with
         | EmitResult.out ms => EmitResult.out (Emitted.up 1 :: ms)
         | EmitResult.terminated ms m => EmitResult.terminated (Emitted.up 1 :: ms) m) := rfl
  refine ⟨?_, ?_, ?_, ?_, ?_, ?_⟩
  · intro reason hr
    rw [e3, hr]
    exact ⟨rfl, rfl⟩
  · intro e he
    rw [e3, he]
  · intro reason hr
    rw [e26, hr]
  · intro e he
    rw [e26, he]
  · rw [ecol3, e3]
    cases body.getString [JKey.field "name"] <;> rfl
  · rw [ecol26, e26]
    cases body.getString [JKey.field "reason"] <;> rfl

/-- C6, witness: the amended theorem applied at status 500 to bodies with
and without the reason field. -/
theorem c6_witness :
    (500 ≠ 200) ∧
    parse3 500 (Body.json (Json.obj [("name", Json.str "rate_limited")])) =
      Outcome.err (ScrapeError.apiReason "rate_limited") ∧
    (ScrapeError.apiReason "rate_limited").message =
      "Invalid response from API. Reason: rate_limited" ∧
    parse26 500 (Body.json (Json.obj [("reason", Json.str "throttled")])) =
      Except.error (ScrapeError.apiReason "throttled") ∧
    collect3 500 (Body.json (Json.obj [("name", Json.str "rate_limited")])) =
      EmitResult.out [Emitted.up 0] ∧
    collect26 500 (Body.json (Json.obj [("reason", Json.str "throttled")])) =
      EmitResult.out [Emitted.up 0] :=
  ⟨by decide,
   ((c6_non200_error_reason 500 (Body.json (Json.obj [("name", Json.str "rate_limited")]))
      (by decide)).1 "rate_limited" rfl).1,
   ((c6_non200_error_reason 500 (Body.json (Json.obj [("name", Json.str "rate_limited")]))
      (by decide)).1 "rate_limited" rfl).2,
   (c6_non200_error_reason 500 (Body.json (Json.obj [("reason", Json.str "throttled")]))
      (by decide)).2.2.1 "throttled" rfl,
   (c6_non200_error_reason 500 (Body.json (Json.obj [("name", Json.str "rate_limited")]))
      (by decide)).2.2.2.2.1,
   (c6_non200_error_reason 500 (Body.json (Json.obj [("reason", Json.str "throttled")]))
      (by decide)).2.2.2.2.2⟩

/-- Parsing one v2.6 row that is an array of numeric leaves keeps exactly
those numbers. -/
theorem parseRow26_nums (r : List ℚ) : parseRow26 (Json.arr (r.map Json.num)) = ⟨r⟩ := by
  have e : parseRow26 (Json.arr (r.map Json.num)) =
      ⟨(r.map Json.num).filterMap (fun e =>
        match e with
        | Json.num q => some q
        | _ => none)⟩ := rfl
  rw [e, filterMap_num]

/-- Parsing a well-formed v2.6 body: no warm-up, the titles are recovered
verbatim, and the single filter table holds one dimension per row with
exactly the row's numbers. -/
theorem parse26_mkBody26 (titles : List String) (fid : String) (rows : List (List ℚ)) :
    parse26 200 (mkBody26 titles fid rows) =
      Except.ok ⟨[⟨fid, rows.map (fun r => (⟨r⟩ : Dimension26))⟩], titles⟩ := by
  have hrows : rowsOf (mkBody26 titles fid rows) fid =
      rows.map (fun r => Json.arr (r.map Json.num)) := by
    simp [rowsOf, mkBody26, Body.getPath, Json.getPath, Json.getKey, lookupField]
  have e : parse26 200 (mkBody26 titles fid rows) =
      Except.ok ⟨(tableFields (mkBody26 titles fid rows)).map (fun p =>
          ⟨p.1, (rowsOf (mkBody26 titles fid rows) p.1).map parseRow26⟩),
        (xvaluesOf (mkBody26 titles fid rows)).map Json.rawText⟩ := rfl
  have htf : tableFields (mkBody26 titles fid rows) =
      [(fid, Json.obj [("rows", Json.arr (rows.map (fun r => Json.arr (r.map Json.num))))])] := rfl
  have hx : xvaluesOf (mkBody26 titles fid rows) = titles.map Json.str := rfl
  rw [e, htf, hx]
  simp [hrows, List.map_map, Function.comp, parseRow26_nums, Json.rawText]
  rw [show Json.rawText ∘ Json.str = id from rfl, List.map_id]

/-- The per-filter sample count: one sample per metric value, 15 per row
when every row carries the full metric set and enough titles exist. -/
theorem filterSamples26_length (fid : String) (dims : List Dimension26) :
    ∀ titles : List String,
      (∀ d ∈ dims, d.metrics.length = 15) → dims.length ≤ titles.length →
      (filterSamples26 fid titles dims).length = dims.length * 15 := by
  induction dims with
  | nil => intro titles _ _; simp [filterSamples26]
  | cons d ds ih =>
    intro titles h15 hle
    cases titles with
    | nil => exact absurd hle (by simp)
    | cons t ts =>
      have h1 : d.metrics.length = 15 := h15 d (by simp)
      have e : filterSamples26 fid (t :: ts) (d :: ds) =
          rowSamples26 fid t 0 d.metrics ++ filterSamples26 fid ts ds := by
        simp [filterSamples26, List.zip_cons_cons]
      rw [e]
      simp only [List.length_append, List.length_cons]
      rw [rowSamples26_length, h1,
        ih ts (fun x hx => h15 x (by simp [hx])) (by simpa using hle)]
      ring

/-- Every message in a filter's emitted prefix is a data sample. -/
theorem filterSamples26_isData (fid : String) (titles : List String) (dims : List Dimension26) :
    ∀ s ∈ filterSamples26 fid titles dims, s.isData = true := by
  intro s hs
  rw [filterSamples26, List.mem_flatMap] at hs
  obtain ⟨p, _, hp⟩ := hs
  exact rowSamples26_isData fid p.1 p.2.metrics 0 s hp

/-- C8: a well-formed v2.6 payload with N grouping rows, each exposing the
full 15-metric set, and matching titles yields exactly one liveness sample
valued 1 followed by exactly N × 15 data samples; in particular the empty
data region yields zero data samples and liveness 1 (success, not error). -/
theorem c8_sample_counts (titles : List String) (fid : String) (rows : List (List ℚ))
    (hN : titles.length = rows.length) (h15 : ∀ r ∈ rows, r.length = 15) :
    (∃ samples, collect26 200 (mkBody26 titles fid rows) =
        EmitResult.out (Emitted.up 1 :: samples) ∧
      samples.length = rows.length * 15 ∧ ∀ s ∈ samples, s.isData = true) ∧
    collect26 200 (mkBody26 [] fid []) = EmitResult.out [Emitted.up 1] := by
  constructor
  · have hlen : (rows.map (fun r => (⟨r⟩ : Dimension26))).length = rows.length := by simp
    have hd15 : ∀ d ∈ rows.map (fun r => (⟨r⟩ : Dimension26)), d.metrics.length = 15 := by
      intro d hd
      rw [List.mem_map] at hd
      obtain ⟨r, hr, hrd⟩ := hd
      rw [← hrd]
      exact h15 r hr
    have hd15le : ∀ d ∈ rows.map (fun r => (⟨r⟩ : Dimension26)), d.metrics.length ≤ 15 :=
      fun d hd => le_of_eq (hd15 d hd)
    have hupd : updateMetrics26 ⟨[⟨fid, rows.map (fun r => (⟨r⟩ : Dimension26))⟩], titles⟩ =
        EmitResult.out (filterSamples26 fid titles (rows.map (fun r => (⟨r⟩ : Dimension26)))) := by
      rw [updateMetrics26_single,
        emitDims26_ok fid (rows.map (fun r => (⟨r⟩ : Dimension26))) titles 0 hd15le (by omega)]
      simp [filterSamples26]
    have ecol2 : collect26 200 (mkBody26 titles fid rows) =
        (match updateMetrics26 ⟨[⟨fid, rows.map (fun r => (⟨r⟩ : Dimension26))⟩], titles⟩ with
         | EmitResult.out ms => EmitResult.out (Emitted.up 1 :: ms)
         | EmitResult.terminated ms m => EmitResult.terminated (Emitted.up 1 :: ms) m) := by
      have ecol : collect26 200 (mkBody26 titles fid rows) =
          (match parse26 200 (mkBody26 titles fid rows) with
           | Except.error _ => EmitResult.out [Emitted.up 0]
           | Except.ok d =>
             match updateMetrics26 d with
             | EmitResult.out ms => EmitResult.out (Emitted.up 1 :: ms)
             | EmitResult.terminated ms m => EmitResult.terminated (Emitted.up 1 :: ms) m) := rfl
      rw [ecol, parse26_mkBody26]
    refine ⟨filterSamples26 fid titles (rows.map (fun r => (⟨r⟩ : Dimension26))), ?_, ?_, ?_⟩
    · rw [ecol2, hupd]
    · rw [filterSamples26_length fid (rows.map (fun r => (⟨r⟩ : Dimension26))) titles hd15
        (by omega), hlen]
    · exact filterSamples26_isData fid titles (rows.map (fun r => (⟨r⟩ : Dimension26)))
  · have ecol : collect26 200 (mkBody26 [] fid []) =
        (match parse26 200 (mkBody26 [] fid []) with
         | Except.error _ => EmitResult.out [Emitted.up 0]
         | Except.ok d =>
           match updateMetrics26 d with
           | EmitResult.out ms => EmitResult.out (Emitted.up 1 :: ms)
           | EmitResult.terminated ms m => EmitResult.terminated (Emitted.up 1 :: ms) m) := rfl
    rw [ecol, parse26_mkBody26]
    rfl

/-- C8, witness: the theorem applied to two titles and two full 15-value
rows — 2 × 15 = 30 data samples plus one liveness sample. -/
theorem c8_witness :
    ((["a", "b"] : List String).length =
      ([[1,2,3,4,5,6,7,8,9,10,11,12,13,14,15],
        [16,17,18,19,20,21,22,23,24,25,26,27,28,29,30]] : List (List ℚ)).length) ∧
    (∀ r ∈ ([[1,2,3,4,5,6,7,8,9,10,11,12,13,14,15],
        [16,17,18,19,20,21,22,23,24,25,26,27,28,29,30]] : List (List ℚ)), r.length = 15) ∧
    (∃ samples, collect26 200 (mkBody26 ["a", "b"] "f"
        [[1,2,3,4,5,6,7,8,9,10,11,12,13,14,15],
         [16,17,18,19,20,21,22,23,24,25,26,27,28,29,30]]) =
        EmitResult.out (Emitted.up 1 :: samples) ∧
      samples.length =
        ([[1,2,3,4,5,6,7,8,9,10,11,12,13,14,15],
          [16,17,18,19,20,21,22,23,24,25,26,27,28,29,30]] : List (List ℚ)).length * 15 ∧
      ∀ s ∈ samples, s.isData = true) :=
  ⟨by decide, by decide,
   (c8_sample_counts ["a", "b"] "f"
      [[1,2,3,4,5,6,7,8,9,10,11,12,13,14,15],
       [16,17,18,19,20,21,22,23,24,25,26,27,28,29,30]] (by decide) (by decide)).1⟩

/-- C9: the Response Parser of either variant is a pure function of the
status code and the raw payload — the shallow embedding needed no process
state at all, because the source parsers read only the immutable
package-level tables and build all their results from freshly allocated
structures.  Running either parser twice on the same input therefore yields
structurally identical results. -/
theorem c9_deterministic (status : Nat) (body : Body) :
    parse3 status body = parse3 status body ∧
    parse26 status body = parse26 status body ∧
    collect3 status body = collect3 status body ∧
    collect26 status body = collect26 status body :=
  ⟨rfl, rfl, rfl, rfl⟩

/-- C10: in the v2.6 variant, once the warm-up array is absent or empty, a
200-status scrape cannot fail: the parser returns a result and a nil error
for every body — even raw bytes that are not JSON at all parse to zero
filters and zero titles, and the scrape emits exactly `up = 1` with no data
samples. -/
theorem c10_warmup_absent_success (body : Body) (h : warmupElems body = []) :
    (∃ d, parse26 200 body = Except.ok d) ∧
    parse26 200 Body.malformed = Except.ok ⟨[], []⟩ ∧
    collect26 200 Body.malformed = EmitResult.out [Emitted.up 1] := by
  refine ⟨⟨⟨(tableFields body).map (fun p => ⟨p.1, (rowsOf body p.1).map parseRow26⟩),
    (xvaluesOf body).map Json.rawText⟩, ?_⟩, rfl, rfl⟩
  simp only [parse26]
  rw [if_neg (by norm_num), if_neg (by rw [h]; simp)]

/-- C10, witness: the theorem applied to a body with no
`quality_metriclens` object at all. -/
theorem c10_witness :
    warmupElems (Body.json Json.null) = [] ∧
    ((∃ d, parse26 200 (Body.json Json.null) = Except.ok d) ∧
      parse26 200 Body.malformed = Except.ok ⟨[], []⟩ ∧
      collect26 200 Body.malformed = EmitResult.out [Emitted.up 1]) :=
  ⟨rfl, c10_warmup_absent_success (Body.json Json.null) rfl⟩

end Conviva
